import Mathlib

/-!
# Rotating Log Sink — verification of `src/cmd/mitto-app/webviewlog_darwin.h`

The repository slice under `src/` contains only the C header declaring the
WebView console logging interface (`WebViewLogConfig`, `initWebViewLog`,
`closeWebViewLog`, `logWebViewConsole`, `getConsoleHookScript`); the
implementation file is not part of the slice.  The behaviour of the sink is
therefore modelled from the specification (`spec.md`, §3–§8): the data model
and every operation below carries a doc comment saying which part of the
spec it embeds.  The struct shape, prototypes and by-value calling
convention come from the header itself.
-/

namespace WebViewLog

/-- The C struct `WebViewLogConfig` from `webviewlog_darwin.h`: `logDir` (directory for
log files), `maxSizeBytes` (C `long`, maximum size of a single log file
before rotation, default 10MB), `maxBackups` (C `int`, number of rotated
files to keep, default 3).  The two numeric fields are modelled as `Int`
since the caller may pass any (possibly negative) machine value. -/
structure WebViewLogConfig where
  logDir : String
  maxSizeBytes : Int
  maxBackups : Int
deriving Repr, DecidableEq

/-- Default `maxSizeBytes`: 10 MiB (spec §3: "integer > 0 (default 10 MiB)"). -/
def defaultMaxSizeBytes : Nat := 10485760

/-- Default `maxBackups` (spec §3: "integer ≥ 0 (default 3)"). -/
def defaultMaxBackups : Nat := 3

/-- Modelled from the spec (§4.1 initialize): the validated configuration
stored in the sink.  `maxSizeBytes` must be > 0 (else the 10 MiB default),
`maxBackups` must be ≥ 0 (else the default 3); after validation both are
natural numbers. -/
structure ValidConfig where
  logDir : String
  maxSizeBytes : Nat
  maxBackups : Nat
deriving Repr, DecidableEq

/-- Modelled from the spec (§4.1 initialize, "Validates/defaults
`maxSizeBytes` (>0, else default 10 MiB) and `maxBackups` (≥0, else
default 3)").  Implementation file is absent; this is the spec's wording. -/
def validateConfig (c : WebViewLogConfig) : ValidConfig where
  logDir := c.logDir
  maxSizeBytes := if c.maxSizeBytes > 0 then c.maxSizeBytes.toNat else defaultMaxSizeBytes
  maxBackups := if c.maxBackups ≥ 0 then c.maxBackups.toNat else defaultMaxBackups

/-- A log file is modelled as the list of records appended to it, each
record being one already-formatted line (a `String` that ends in a newline
but may also contain interior newlines, spec §4.1 write). -/
abbrev LogFile := List String

/-- Byte length of a file: the sum of the lengths of its records. -/
def fileSize (f : LogFile) : Nat := (f.map String.length).sum

/-- Modelled from the spec (§6 persisted state layout): the directory holds
one active log file and an ordered sequence of rotated backups; list index 0
is backup slot 1 (the newest). -/
structure FileSys where
  active : LogFile
  backups : List LogFile
deriving Repr, DecidableEq

/-- Modelled from the spec (§3 sink state): the in-memory part of the sink
while initialized — the incrementally tracked size of the active file and
the immutable validated configuration. -/
structure SinkRuntime where
  currentSizeBytes : Nat
  config : ValidConfig
deriving Repr, DecidableEq

/-- The whole modelled world: the on-disk files, the optional initialized
sink (`none` = never initialized / initialize failed / shut down), the
number of file handles currently open for append, and a counter of
rotations performed (purely observational, for stating "exactly one
rotation"). -/
structure Sys where
  fs : FileSys
  sink : Option SinkRuntime
  openHandles : Nat
  rotations : Nat
deriving Repr, DecidableEq

/-- The state of a fresh process over an empty log directory: no file
content, no sink, no open handle. -/
def Sys.empty : Sys := ⟨⟨[], []⟩, none, 0, 0⟩

/-- Modelled from the spec (§4.1 initialize failure cases): the filesystem
environment of one `initWebViewLog` call — whether the target directory can
be created and whether the active file can be opened for append. -/
structure InitEnv where
  dirOk : Bool
  fileOk : Bool
deriving Repr, DecidableEq

/-- The header's `closeWebViewLog`, behaviour modelled from the spec
(§4.1 shutdown): flushes and closes the active file handle; safe to call
when never initialized; a second call is a no-op.  Disk content is not
touched. -/
def closeWebViewLog (s : Sys) : Sys :=
  match s.sink with
  | none => s
  | some _ => { s with sink := none, openHandles := s.openHandles - 1 }

/-- The header's `initWebViewLog`, behaviour modelled from the spec
(§4.1 initialize): first closes any previously open handle (the documented
idempotency policy), then — if the directory can be created and the active
file opened for append — opens the active file and records its current size
as `currentSizeBytes`; otherwise fails.  Returns the new state and `none`
on success or `some ()` as the `IOError` failure result (the header's
non-zero return). -/
def initWebViewLog (config : WebViewLogConfig) (env : InitEnv) (s : Sys) :
    Sys × Option Unit :=
  let s0 := closeWebViewLog s
  if env.dirOk && env.fileOk then
    ({ s0 with
        sink := some ⟨fileSize s0.fs.active, validateConfig config⟩,
        openHandles := s0.openHandles + 1 }, none)
  else
    (s0, some ())

/-- Modelled from the spec (§4.1 write, line format): a record is formatted
as `<timestamp> [<level>] <message>\n`, with `level` and `message` inserted
as opaque, unescaped text. -/
def formatLine (ts level message : String) : String :=
  ts ++ " [" ++ level ++ "] " ++ message ++ "\x0a"

/-- Modelled from the spec (§4.1 rotation algorithm): close the active
handle; when `maxBackups > 0`, shift backup i to backup i+1 for i from
`maxBackups−1` down to 1 (discarding what was backup `maxBackups`) and
rename the just-closed active file to backup slot 1; when `maxBackups = 0`,
skip the shift/rename and delete the old active file; finally create a new
empty active file, reset `currentSizeBytes` to 0.  The handle closed in
step 1 is balanced by the handle opened in step 4. -/
def rotate (rt : SinkRuntime) (s : Sys) : Sys :=
  let mb := rt.config.maxBackups
  let backups' :=
    if mb = 0 then s.fs.backups
    else s.fs.active :: s.fs.backups.take (mb - 1)
  { s with
      fs := { active := [], backups := backups' },
      sink := some ⟨0, rt.config⟩,
      rotations := s.rotations + 1 }

/-- Modelled from the spec (§4.1 write, §9 silent-failure design): the
internal, `Result`-returning write.  A write with no initialized sink is a
silent no-op (success with the state unchanged).  Otherwise, when the I/O
succeeds (`ioOk`), the formatted line is appended to the active file,
`currentSizeBytes` grows by the bytes written, and if it now exceeds
`config.maxSizeBytes` a rotation is performed before returning; when the
I/O fails the internal function reports the error and the state is
unchanged. -/
def logWebViewConsoleAux (ts level message : String) (ioOk : Bool) (s : Sys) :
    Except Unit Sys :=
  match s.sink with
  | none => Except.ok s
  | some rt =>
    if ioOk then
      let line := formatLine ts level message
      let active1 := s.fs.active ++ [line]
      let size1 := rt.currentSizeBytes + line.length
      let s1 : Sys :=
        { s with fs := { s.fs with active := active1 },
                 sink := some ⟨size1, rt.config⟩ }
      if size1 > rt.config.maxSizeBytes then
        Except.ok (rotate ⟨size1, rt.config⟩ s1)
      else
        Except.ok s1
    else
      Except.error ()

/-- The header's `logWebViewConsole`, behaviour modelled from the spec
(§4.1 write, §7 error policy): the public entry point absorbs every error
of the internal write — on failure it leaves the state as it was and
reports nothing to the caller.  The second component is the caller-visible
error channel: always `none` (the C function returns `void`). -/
def logWebViewConsole (ts level message : String) (ioOk : Bool) (s : Sys) :
    Sys × Option Unit :=
  match logWebViewConsoleAux ts level message ioOk s with
  | Except.ok s' => (s', none)
  | Except.error _ => (s, none)

/-- The state transformer of one public `write` call. -/
def writeFn (ts level message : String) (ioOk : Bool) (s : Sys) : Sys :=
  (logWebViewConsole ts level message ioOk s).1

/-- One operation of the sink's public lifecycle. -/
inductive Op
  | init (cfg : WebViewLogConfig) (env : InitEnv)
  | write (ts level message : String) (ioOk : Bool)
  | close
deriving Repr, DecidableEq

/-- The state transformer of one operation (the caller-visible error
channel of `init` is discarded for trace purposes). -/
def step (s : Sys) : Op → Sys
  | Op.init cfg env => (initWebViewLog cfg env s).1
  | Op.write ts lv msg ok => writeFn ts lv msg ok s
  | Op.close => closeWebViewLog s

/-- Run a sequence of operations from a state. -/
def run (s : Sys) : List Op → Sys
  | [] => s
  | op :: ops => run (step s op) ops

/-- Modelled from the header's by-value prototype
`int initWebViewLog(WebViewLogConfig config)`: the caller's `config` struct
is copied into the callee's frame, so the call leaves the caller's struct
untouched even though the callee validates (and possibly rewrites) its own
copy.  The first component is the caller's struct after the call. -/
def initWebViewLogCall (callerConfig : WebViewLogConfig) (env : InitEnv)
    (s : Sys) : WebViewLogConfig × Sys × Option Unit :=
  let calleeCopy := callerConfig
  (callerConfig, initWebViewLog calleeCopy env s)


/-- Whether an operation is an initialize call. -/
def Op.isInit : Op → Bool
  | Op.init _ _ => true
  | _ => false

/-- C7's invariant (spec §3 invariant 2): whenever the sink is open, the
incrementally tracked currentSizeBytes equals the active file's true byte
length. -/
def SizeInv (s : Sys) : Prop :=
  ∀ rt, s.sink = some rt → rt.currentSizeBytes = fileSize s.fs.active

/-- C8's invariant (spec §3 invariant 1): exactly one handle is open for
append while the sink is open, none otherwise. -/
def HandleInv (s : Sys) : Prop :=
  s.openHandles = if s.sink.isSome then 1 else 0

/-- Spec §8 scenario 6: maxSizeBytes = 100, maxBackups = 2, records of
exactly 15 bytes each (formatLine "t00001" "l" "mNN" has length
6 + 1 + 3 + 5 = 15). -/
def scenarioInit : Sys :=
  (initWebViewLog ⟨"D", 100, 2⟩ ⟨true, true⟩ Sys.empty).1

/-- The first seven 15-byte records of spec §8 scenario 6. -/
def scenario7Ops : List Op :=
  [Op.write "t00001" "l" "m01" true, Op.write "t00001" "l" "m02" true,
   Op.write "t00001" "l" "m03" true, Op.write "t00001" "l" "m04" true,
   Op.write "t00001" "l" "m05" true, Op.write "t00001" "l" "m06" true,
   Op.write "t00001" "l" "m07" true]

/-- All ten records of spec §8 scenario 6. -/
def scenario10Ops : List Op :=
  scenario7Ops ++
    [Op.write "t00001" "l" "m08" true, Op.write "t00001" "l" "m09" true,
     Op.write "t00001" "l" "m10" true]

/-- The state of spec §8 scenario 6 after the 7th record. -/
def scenarioAfter7 : Sys := run scenarioInit scenario7Ops

/-- The state of spec §8 scenario 6 after all 10 records. -/
def scenarioAfter10 : Sys := run scenarioInit scenario10Ops

/-- C3's concrete scenario: maxBackups = 3 and maxSizeBytes = 10, so every
11-byte record (formatLine "t0" "l" "abN" has length 2 + 1 + 3 + 5 = 11)
triggers a rotation. -/
def fiveRotationOps : List Op :=
  [Op.write "t0" "l" "ab1" true, Op.write "t0" "l" "ab2" true,
   Op.write "t0" "l" "ab3" true, Op.write "t0" "l" "ab4" true,
   Op.write "t0" "l" "ab5" true]

/-- The C3 scenario after four rotations. -/
def fourRotState : Sys :=
  run (initWebViewLog ⟨"D", 10, 3⟩ ⟨true, true⟩ Sys.empty).1
    (fiveRotationOps.take 4)

/-- The C3 scenario after five rotations. -/
def fiveRotState : Sys :=
  run (initWebViewLog ⟨"D", 10, 3⟩ ⟨true, true⟩ Sys.empty).1 fiveRotationOps

/-! ## Basic lemmas -/

theorem fileSize_nil : fileSize [] = 0 := rfl

theorem fileSize_append (f : LogFile) (l : String) :
    fileSize (f ++ [l]) = fileSize f + l.length := by
  simp [fileSize]

/-- Auxiliary: an operation predicate preserved along a run is preserved at
the end of the run. -/
theorem run_preserves_of (P : Sys → Prop) (Q : Op → Prop)
    (hstep : ∀ s op, Q op → P s → P (step s op)) :
    ∀ (ops : List Op) (s : Sys), (∀ op ∈ ops, Q op) → P s → P (run s ops)
  | [], _, _, hP => hP
  | op :: ops, s, hQ, hP =>
    run_preserves_of P Q hstep ops (step s op)
      (fun o ho => hQ o (List.mem_cons_of_mem op ho))
      (hstep s op (hQ op (List.mem_cons_self op ops)) hP)

/-- Auxiliary: the public write on a state whose sink is open, with the
I/O succeeding, is append-then-possibly-rotate. -/
theorem writeFn_some (ts lv msg : String) (s : Sys) (rt : SinkRuntime)
    (h : s.sink = some rt) :
    writeFn ts lv msg true s =
      (if rt.currentSizeBytes + (formatLine ts lv msg).length >
            rt.config.maxSizeBytes
       then rotate ⟨rt.currentSizeBytes + (formatLine ts lv msg).length, rt.config⟩
              { s with
                  fs := { s.fs with
                            active := s.fs.active ++ [formatLine ts lv msg] },
                  sink := some ⟨rt.currentSizeBytes +
                            (formatLine ts lv msg).length, rt.config⟩ }
       else { s with
                fs := { s.fs with
                          active := s.fs.active ++ [formatLine ts lv msg] },
                sink := some ⟨rt.currentSizeBytes +
                          (formatLine ts lv msg).length, rt.config⟩ }) := by
  by_cases hc : rt.currentSizeBytes + (formatLine ts lv msg).length >
      rt.config.maxSizeBytes
  · unfold writeFn logWebViewConsole logWebViewConsoleAux
    rw [h]
    simp only [if_pos hc]
    simp
  · unfold writeFn logWebViewConsole logWebViewConsoleAux
    rw [h]
    simp only [if_neg hc]
    simp

/-! ## C1 -/

/-- C1: if, after appending the formatted line and incrementing
currentSizeBytes by the bytes written, currentSizeBytes exceeds
config.maxSizeBytes, then exactly one rotation is performed before the
write call returns; a write that leaves currentSizeBytes at or below
maxSizeBytes performs no rotation. -/
theorem write_rotation_trigger (ts lv msg : String) (s : Sys)
    (rt : SinkRuntime) (h : s.sink = some rt) :
    (rt.currentSizeBytes + (formatLine ts lv msg).length >
        rt.config.maxSizeBytes →
      (writeFn ts lv msg true s).rotations = s.rotations + 1) ∧
    (rt.currentSizeBytes + (formatLine ts lv msg).length ≤
        rt.config.maxSizeBytes →
      (writeFn ts lv msg true s).rotations = s.rotations ∧
      (writeFn ts lv msg true s).fs.backups = s.fs.backups) := by
  rw [writeFn_some ts lv msg s rt h]
  constructor
  · intro hgt
    rw [if_pos hgt]
    simp [rotate]
  · intro hle
    rw [if_neg (by omega)]
    exact ⟨rfl, rfl⟩

/-- Witness for C1 at a concrete state: one write over an open sink with
maxSizeBytes 8 rotates (line length 9 > 8), and with maxSizeBytes 100 it
does not. -/
theorem write_rotation_trigger_witness :
    (({ fs := ⟨[], []⟩, sink := some ⟨0, ⟨"D", 8, 2⟩⟩, openHandles := 1,
        rotations := 0 } : Sys).sink = some ⟨0, ⟨"D", 8, 2⟩⟩) ∧
    (writeFn "t0" "l" "ab" true
      { fs := ⟨[], []⟩, sink := some ⟨0, ⟨"D", 8, 2⟩⟩, openHandles := 1,
        rotations := 0 }).rotations = 1 ∧
    (writeFn "t0" "l" "ab" true
      { fs := ⟨[], []⟩, sink := some ⟨0, ⟨"D", 100, 2⟩⟩, openHandles := 1,
        rotations := 0 }).rotations = 0 := by
  refine ⟨rfl, ?_, ?_⟩
  · exact (write_rotation_trigger "t0" "l" "ab" _ ⟨0, ⟨"D", 8, 2⟩⟩ rfl).1
      (by decide)
  · exact ((write_rotation_trigger "t0" "l" "ab" _ ⟨0, ⟨"D", 100, 2⟩⟩ rfl).2
      (by decide)).1

/-! ## C5 -/

/-- C5: a write call made before any initialize (or after initialize
failed), and a write call made after shutdown, are silent no-ops that
change no state and no file; shutdown is safe when never initialized, and
calling it a second time is a no-op. -/
theorem uninitialized_and_shutdown_safe (ts lv msg : String) (ok : Bool)
    (s : Sys) :
    (s.sink = none → writeFn ts lv msg ok s = s) ∧
    (s.sink = none → closeWebViewLog s = s) ∧
    closeWebViewLog (closeWebViewLog s) = closeWebViewLog s ∧
    writeFn ts lv msg ok (closeWebViewLog s) = closeWebViewLog s ∧
    (closeWebViewLog s).fs = s.fs := by
  have hw : ∀ t : Sys, t.sink = none → writeFn ts lv msg ok t = t := by
    intro t ht
    unfold writeFn logWebViewConsole logWebViewConsoleAux
    rw [ht]
  have hcnone : (closeWebViewLog s).sink = none := by
    unfold closeWebViewLog
    cases hs : s.sink <;> simp [hs]
  refine ⟨hw s, ?_, ?_, hw _ hcnone, ?_⟩
  · intro hs; unfold closeWebViewLog; rw [hs]
  · conv_lhs => rw [closeWebViewLog]
    rw [hcnone]
  · unfold closeWebViewLog
    cases hs : s.sink <;> simp [hs]

/-- Witness for C5 at a concrete state: the empty (never-initialized)
state, and shutdown applied twice to it. -/
theorem uninitialized_and_shutdown_safe_witness :
    Sys.empty.sink = none ∧
    writeFn "t" "error" "x" true Sys.empty = Sys.empty ∧
    closeWebViewLog (closeWebViewLog Sys.empty) = closeWebViewLog Sys.empty := by
  have h := uninitialized_and_shutdown_safe "t" "error" "x" true Sys.empty
  exact ⟨rfl, h.1 rfl, h.2.2.1⟩

/-! ## C6 -/

/-- C6: initialize returns a failure result iff the target directory cannot
be created or the active file cannot be opened for append; an invalid
maxSizeBytes (not > 0) or maxBackups (not ≥ 0) does not cause failure but
is replaced by the defaults 10 MiB and 3; the outcome is independent of the
config values; and no operation after a successful initialize ever returns
an error to the caller (the public write's error channel is always empty,
even when the internal write fails). -/
theorem init_fails_iff_io_fails (cfg cfg2 : WebViewLogConfig)
    (env : InitEnv) (s : Sys) (ts lv msg : String) (ok : Bool) :
    ((initWebViewLog cfg env s).2 = some () ↔
       ¬(env.dirOk = true ∧ env.fileOk = true)) ∧
    (cfg.maxSizeBytes ≤ 0 →
       (validateConfig cfg).maxSizeBytes = defaultMaxSizeBytes) ∧
    (cfg.maxBackups < 0 →
       (validateConfig cfg).maxBackups = defaultMaxBackups) ∧
    (initWebViewLog cfg env s).2 = (initWebViewLog cfg2 env s).2 ∧
    (logWebViewConsole ts lv msg ok s).2 = none ∧
    (logWebViewConsoleAux ts lv msg ok s = Except.error () →
       logWebViewConsole ts lv msg ok s = (s, none)) := by
  refine ⟨?_, ?_, ?_, ?_, ?_, ?_⟩
  · unfold initWebViewLog
    cases hd : env.dirOk <;> cases hf : env.fileOk <;> simp [hd, hf]
  · intro hle
    simp only [validateConfig]
    rw [if_neg (by omega)]
  · intro hlt
    simp only [validateConfig]
    rw [if_neg (by omega)]
  · unfold initWebViewLog
    cases hd : env.dirOk <;> cases hf : env.fileOk <;> simp [hd, hf]
  · unfold logWebViewConsole
    cases hx : logWebViewConsoleAux ts lv msg ok s <;> simp [hx]
  · intro herr
    unfold logWebViewConsole
    rw [herr]

/-- Witness for C6 at concrete inputs: an unwritable directory makes
initialize fail even with an invalid config, the invalid values validate to
the defaults, and a failing write surfaces nothing. -/
theorem init_fails_iff_io_fails_witness :
    (initWebViewLog ⟨"D", -1, -2⟩ ⟨false, true⟩ Sys.empty).2 = some () ∧
    (validateConfig ⟨"D", -1, -2⟩).maxSizeBytes = defaultMaxSizeBytes ∧
    (validateConfig ⟨"D", -1, -2⟩).maxBackups = defaultMaxBackups ∧
    (logWebViewConsole "t" "l" "m" false Sys.empty).2 = none := by
  have h := init_fails_iff_io_fails ⟨"D", -1, -2⟩ ⟨"D", 100, 2⟩
    ⟨false, true⟩ Sys.empty "t" "l" "m" false
  exact ⟨h.1.mpr (by decide), h.2.1 (by decide), h.2.2.1 (by decide),
    h.2.2.2.2.1⟩

/-! ## C10 -/

/-- C10: initWebViewLog receives its WebViewLogConfig argument by value, so
the caller's config struct (logDir, maxSizeBytes, maxBackups fields) is
unchanged by initialization, whether it succeeds or fails — even though the
callee's copy is validated and the sink stores the (possibly different)
defaulted values. -/
theorem init_preserves_caller_config (cfg : WebViewLogConfig)
    (env : InitEnv) (s : Sys) :
    (initWebViewLogCall cfg env s).1 = cfg ∧
    (initWebViewLogCall cfg env s).1.logDir = cfg.logDir ∧
    (initWebViewLogCall cfg env s).1.maxSizeBytes = cfg.maxSizeBytes ∧
    (initWebViewLogCall cfg env s).1.maxBackups = cfg.maxBackups ∧
    (initWebViewLogCall cfg ⟨true, true⟩ s).2.1.sink =
      some ⟨fileSize (closeWebViewLog s).fs.active, validateConfig cfg⟩ := by
  refine ⟨rfl, rfl, rfl, rfl, ?_⟩
  unfold initWebViewLogCall initWebViewLog
  simp

/-! ## C4 -/

/-- C4: every rotation closes the active handle and reopens a fresh one
(net handle count unchanged), shifts backup i to backup i+1 for i from
maxBackups-1 down to 1 (so slot i+1 afterwards holds what slot i held),
discards what was backup maxBackups (no slot beyond maxBackups exists
afterwards), renames the just-closed active file to backup slot 1, and
creates a new empty active file with currentSizeBytes reset to 0; when
maxBackups = 0 the shift and rename are skipped and the old active file is
deleted instead, leaving the backup set untouched. -/
theorem rotate_performs_spec_steps (rt : SinkRuntime) (s : Sys) :
    (rotate rt s).fs.active = [] ∧
    (rotate rt s).sink = some ⟨0, rt.config⟩ ∧
    (rotate rt s).rotations = s.rotations + 1 ∧
    (rotate rt s).openHandles = s.openHandles ∧
    (rt.config.maxBackups = 0 → (rotate rt s).fs.backups = s.fs.backups) ∧
    (0 < rt.config.maxBackups →
      (rotate rt s).fs.backups.head? = some s.fs.active ∧
      (∀ i, i + 1 < rt.config.maxBackups →
        (rotate rt s).fs.backups[i + 1]? = s.fs.backups[i]?) ∧
      (rotate rt s).fs.backups.length ≤ rt.config.maxBackups ∧
      (rotate rt s).fs.backups[rt.config.maxBackups]? = none) := by
  by_cases h0 : rt.config.maxBackups = 0
  · have he : rotate rt s =
        { fs := ⟨[], s.fs.backups⟩, sink := some ⟨0, rt.config⟩,
          openHandles := s.openHandles, rotations := s.rotations + 1 } := by
      simp only [rotate]
      rw [if_pos h0]
    rw [he]
    exact ⟨rfl, rfl, rfl, rfl, fun _ => rfl, fun hpos => absurd h0 (by omega)⟩
  · have he : rotate rt s =
        { fs := ⟨[], s.fs.active ::
            s.fs.backups.take (rt.config.maxBackups - 1)⟩,
          sink := some ⟨0, rt.config⟩,
          openHandles := s.openHandles, rotations := s.rotations + 1 } := by
      simp only [rotate]
      rw [if_neg h0]
    rw [he]
    refine ⟨rfl, rfl, rfl, rfl, fun hz => absurd hz h0, fun hpos => ?_⟩
    have hlen : (s.fs.active :: s.fs.backups.take
        (rt.config.maxBackups - 1)).length ≤ rt.config.maxBackups := by
      simp only [List.length_cons, List.length_take]
      have := Nat.min_le_left (rt.config.maxBackups - 1) s.fs.backups.length
      omega
    refine ⟨rfl, ?_, hlen, List.getElem?_eq_none hlen⟩
    intro i hi
    rw [List.getElem?_cons_succ]
    exact List.getElem?_take_of_lt (by omega)

/-- Witness for C4's conditional parts at a concrete rotation: maxBackups
= 2 with two existing backups (the older one is discarded, the active file
becomes backup 1), and maxBackups = 0 (backups untouched). -/
theorem rotate_performs_spec_steps_witness :
    (rotate ⟨9, ⟨"D", 8, 2⟩⟩
        { fs := ⟨["a"], [["b"], ["c"]]⟩, sink := some ⟨9, ⟨"D", 8, 2⟩⟩,
          openHandles := 1, rotations := 0 }).fs.backups.head? =
      some ["a"] ∧
    (rotate ⟨9, ⟨"D", 8, 2⟩⟩
        { fs := ⟨["a"], [["b"], ["c"]]⟩, sink := some ⟨9, ⟨"D", 8, 2⟩⟩,
          openHandles := 1, rotations := 0 }).fs.backups.get? 2 = none ∧
    (rotate ⟨9, ⟨"D", 8, 0⟩⟩
        { fs := ⟨["a"], []⟩, sink := some ⟨9, ⟨"D", 8, 0⟩⟩,
          openHandles := 1, rotations := 0 }).fs.backups = [] := by
  have h2 := rotate_performs_spec_steps ⟨9, ⟨"D", 8, 2⟩⟩
    { fs := ⟨["a"], [["b"], ["c"]]⟩, sink := some ⟨9, ⟨"D", 8, 2⟩⟩,
      openHandles := 1, rotations := 0 }
  have h0 := rotate_performs_spec_steps ⟨9, ⟨"D", 8, 0⟩⟩
    { fs := ⟨["a"], []⟩, sink := some ⟨9, ⟨"D", 8, 0⟩⟩,
      openHandles := 1, rotations := 0 }
  exact ⟨(h2.2.2.2.2.2 (by decide)).1, (h2.2.2.2.2.2 (by decide)).2.2.2,
    h0.2.2.2.2.1 (by decide)⟩

/-! ## C9 -/

/-- C9: for every level and message, write appends exactly the line
"timestamp [level] message" followed by a newline, with level and message
inserted as opaque unescaped text; a message containing embedded newlines
is written unmodified (the appended record is that same single string):
when no rotation is triggered it lands at the end of the active file, and
when rotation is triggered (and backups are kept) it lands at the end of
the file that becomes backup slot 1. -/
theorem write_appends_formatted_line (ts lv msg : String) (s : Sys)
    (rt : SinkRuntime) (h : s.sink = some rt) :
    formatLine ts lv msg = ts ++ " [" ++ lv ++ "] " ++ msg ++ "\n" ∧
    (rt.currentSizeBytes + (formatLine ts lv msg).length ≤
        rt.config.maxSizeBytes →
      (writeFn ts lv msg true s).fs.active =
        s.fs.active ++ [formatLine ts lv msg]) ∧
    (rt.currentSizeBytes + (formatLine ts lv msg).length >
        rt.config.maxSizeBytes →
      0 < rt.config.maxBackups →
      (writeFn ts lv msg true s).fs.backups.head? =
        some (s.fs.active ++ [formatLine ts lv msg])) := by
  rw [writeFn_some ts lv msg s rt h]
  refine ⟨rfl, ?_, ?_⟩
  · intro hle
    rw [if_neg (by omega)]
  · intro hgt hpos
    rw [if_pos hgt]
    unfold rotate
    simp only [if_neg (by omega : ¬rt.config.maxBackups = 0)]
    rfl

/-- Witness for C9 at concrete inputs, with a message containing an
embedded newline: one write below the threshold appends the multi-line
record to the active file; one over the threshold lands it in backup 1. -/
theorem write_appends_formatted_line_witness :
    formatLine "t0" "warn" "a\nb" = "t0 [warn] a\nb\n" ∧
    (writeFn "t0" "warn" "a\nb" true
        { fs := ⟨[], []⟩, sink := some ⟨0, ⟨"D", 100, 2⟩⟩,
          openHandles := 1, rotations := 0 }).fs.active =
      [formatLine "t0" "warn" "a\nb"] ∧
    (writeFn "t0" "warn" "a\nb" true
        { fs := ⟨[], []⟩, sink := some ⟨0, ⟨"D", 8, 2⟩⟩,
          openHandles := 1, rotations := 0 }).fs.backups.head? =
      some [formatLine "t0" "warn" "a\nb"] := by
  have h1 := write_appends_formatted_line "t0" "warn" "a\nb"
    { fs := ⟨[], []⟩, sink := some ⟨0, ⟨"D", 100, 2⟩⟩,
      openHandles := 1, rotations := 0 } ⟨0, ⟨"D", 100, 2⟩⟩ rfl
  have h2 := write_appends_formatted_line "t0" "warn" "a\nb"
    { fs := ⟨[], []⟩, sink := some ⟨0, ⟨"D", 8, 2⟩⟩,
      openHandles := 1, rotations := 0 } ⟨0, ⟨"D", 8, 2⟩⟩ rfl
  refine ⟨h1.1.trans (by decide), ?_, ?_⟩
  · have := h1.2.1 (by decide)
    simpa using this
  · have := h2.2.2 (by decide) (by decide)
    simpa using this

/-- Auxiliary: write on an uninitialized (or shut-down) sink is the
identity. -/
theorem writeFn_sink_none (ts lv msg : String) (ok : Bool) (s : Sys)
    (h : s.sink = none) : writeFn ts lv msg ok s = s := by
  unfold writeFn logWebViewConsole logWebViewConsoleAux
  rw [h]

/-- Auxiliary: a write whose I/O fails leaves the state unchanged. -/
theorem writeFn_ioFail (ts lv msg : String) (s : Sys) :
    writeFn ts lv msg false s = s := by
  unfold writeFn logWebViewConsole logWebViewConsoleAux
  cases hs : s.sink <;> simp [hs]

/-- Auxiliary: shutdown does not touch the files on disk. -/
theorem close_fs (s : Sys) : (closeWebViewLog s).fs = s.fs := by
  unfold closeWebViewLog
  cases hs : s.sink <;> rfl

/-- Auxiliary: shutdown does not rotate. -/
theorem close_rotations (s : Sys) :
    (closeWebViewLog s).rotations = s.rotations := by
  unfold closeWebViewLog
  cases hs : s.sink <;> rfl

/-- Auxiliary: after shutdown the sink is closed. -/
theorem close_sink (s : Sys) : (closeWebViewLog s).sink = none := by
  unfold closeWebViewLog
  cases hs : s.sink <;> simp [hs]

/-- Auxiliary: shutdown from a handle-consistent state leaves no handle
open. -/
theorem close_handles_of_inv (s : Sys) (h : HandleInv s) :
    (closeWebViewLog s).openHandles = 0 := by
  unfold HandleInv at h
  unfold closeWebViewLog
  cases hs : s.sink
  · rw [hs] at h
    simpa using h
  · rw [hs] at h
    simp at h
    simp [h]

/-- Auxiliary: the rotated state, written out. -/
theorem rotate_eq (rt : SinkRuntime) (s : Sys) :
    rotate rt s =
      { fs := ⟨[], if rt.config.maxBackups = 0 then s.fs.backups
                   else s.fs.active ::
                     s.fs.backups.take (rt.config.maxBackups - 1)⟩,
        sink := some ⟨0, rt.config⟩,
        openHandles := s.openHandles,
        rotations := s.rotations + 1 } := by
  simp only [rotate]

/-- Auxiliary: the state produced by one initialize call, by fields. -/
theorem initWebViewLog_fields (cfg : WebViewLogConfig) (env : InitEnv)
    (s : Sys) :
    (initWebViewLog cfg env s).1.fs = s.fs ∧
    (initWebViewLog cfg env s).1.rotations = s.rotations ∧
    ((env.dirOk && env.fileOk) = true →
      (initWebViewLog cfg env s).1.sink =
        some ⟨fileSize s.fs.active, validateConfig cfg⟩ ∧
      (initWebViewLog cfg env s).1.openHandles =
        (closeWebViewLog s).openHandles + 1) ∧
    (¬(env.dirOk && env.fileOk) = true →
      (initWebViewLog cfg env s).1 = closeWebViewLog s) := by
  unfold initWebViewLog
  by_cases hc : (env.dirOk && env.fileOk) = true
  · rw [if_pos hc]
    exact ⟨close_fs s, close_rotations s,
      fun _ => ⟨by rw [close_fs], rfl⟩, fun hn => absurd hc hn⟩
  · rw [if_neg hc]
    exact ⟨close_fs s, close_rotations s, fun hy => absurd hy hc, fun _ => rfl⟩

/-- Auxiliary: every operation preserves the size invariant. -/
theorem sizeInv_step (s : Sys) (op : Op) (h : SizeInv s) :
    SizeInv (step s op) := by
  cases op with
  | init cfg env =>
    intro rt hrt
    have hi := initWebViewLog_fields cfg env s
    rw [show step s (Op.init cfg env) = (initWebViewLog cfg env s).1 from rfl]
      at hrt ⊢
    by_cases hc : (env.dirOk && env.fileOk) = true
    · rw [(hi.2.2.1 hc).1] at hrt
      injection hrt with hrt
      rw [← hrt, hi.1]
    · rw [hi.2.2.2 hc, close_sink] at hrt
      exact Option.noConfusion hrt
  | write ts lv msg ok =>
    cases ok with
    | false =>
      intro rt hrt
      rw [show step s (Op.write ts lv msg false) =
            writeFn ts lv msg false s from rfl] at hrt ⊢
      rw [writeFn_ioFail] at hrt ⊢
      exact h rt hrt
    | true =>
      cases hs : s.sink with
      | none =>
        intro rt hrt
        rw [show step s (Op.write ts lv msg true) =
              writeFn ts lv msg true s from rfl] at hrt ⊢
        rw [writeFn_sink_none ts lv msg true s hs] at hrt ⊢
        exact h rt hrt
      | some rt0 =>
        intro rt hrt
        rw [show step s (Op.write ts lv msg true) =
              writeFn ts lv msg true s from rfl] at hrt ⊢
        rw [writeFn_some ts lv msg s rt0 hs] at hrt ⊢
        by_cases hc : rt0.currentSizeBytes + (formatLine ts lv msg).length >
            rt0.config.maxSizeBytes
        · rw [if_pos hc, rotate_eq] at hrt ⊢
          injection hrt with hrt
          rw [← hrt]
          rfl
        · rw [if_neg hc] at hrt ⊢
          injection hrt with hrt
          rw [← hrt]
          show rt0.currentSizeBytes + (formatLine ts lv msg).length =
            fileSize (s.fs.active ++ [formatLine ts lv msg])
          rw [fileSize_append, h rt0 hs]
  | close =>
    intro rt hrt
    rw [show step s Op.close = closeWebViewLog s from rfl, close_sink] at hrt
    exact Option.noConfusion hrt

/-- Auxiliary: every operation preserves the handle invariant. -/
theorem handleInv_step (s : Sys) (op : Op) (h : HandleInv s) :
    HandleInv (step s op) := by
  cases op with
  | init cfg env =>
    unfold HandleInv
    have hi := initWebViewLog_fields cfg env s
    rw [show step s (Op.init cfg env) = (initWebViewLog cfg env s).1 from rfl]
    by_cases hc : (env.dirOk && env.fileOk) = true
    · rw [(hi.2.2.1 hc).1, (hi.2.2.1 hc).2, close_handles_of_inv s h]
      simp
    · rw [hi.2.2.2 hc, close_handles_of_inv s h, close_sink]
      simp
  | write ts lv msg ok =>
    unfold HandleInv at h ⊢
    cases ok with
    | false =>
      rw [show step s (Op.write ts lv msg false) =
            writeFn ts lv msg false s from rfl, writeFn_ioFail]
      exact h
    | true =>
      cases hs : s.sink with
      | none =>
        rw [show step s (Op.write ts lv msg true) =
              writeFn ts lv msg true s from rfl,
           writeFn_sink_none ts lv msg true s hs]
        exact h
      | some rt0 =>
        rw [show step s (Op.write ts lv msg true) =
              writeFn ts lv msg true s from rfl,
           writeFn_some ts lv msg s rt0 hs]
        by_cases hc : rt0.currentSizeBytes + (formatLine ts lv msg).length >
            rt0.config.maxSizeBytes
        · rw [if_pos hc, rotate_eq]
          rw [hs] at h
          simpa using h
        · rw [if_neg hc]
          rw [hs] at h
          simpa using h
  | close =>
    unfold HandleInv
    rw [show step s Op.close = closeWebViewLog s from rfl,
       close_handles_of_inv s h, close_sink]
    simp

/-- Auxiliary: a non-initialize operation keeps the backup count within
the configured bound and keeps the configured bound itself. -/
theorem backupsInv_step (N : Nat) (s : Sys) (op : Op)
    (hop : op.isInit = false)
    (hlen : s.fs.backups.length ≤ N)
    (hcfg : ∀ rt, s.sink = some rt → rt.config.maxBackups = N) :
    (step s op).fs.backups.length ≤ N ∧
    (∀ rt, (step s op).sink = some rt → rt.config.maxBackups = N) := by
  cases op with
  | init cfg env => exact absurd hop (by simp [Op.isInit])
  | close =>
    refine ⟨?_, ?_⟩
    · rw [show step s Op.close = closeWebViewLog s from rfl, close_fs]
      exact hlen
    · intro rt hrt
      rw [show step s Op.close = closeWebViewLog s from rfl, close_sink] at hrt
      exact Option.noConfusion hrt
  | write ts lv msg ok =>
    cases ok with
    | false =>
      rw [show step s (Op.write ts lv msg false) =
            writeFn ts lv msg false s from rfl, writeFn_ioFail]
      exact ⟨hlen, hcfg⟩
    | true =>
      cases hs : s.sink with
      | none =>
        rw [show step s (Op.write ts lv msg true) =
              writeFn ts lv msg true s from rfl,
           writeFn_sink_none ts lv msg true s hs]
        exact ⟨hlen, hcfg⟩
      | some rt0 =>
        have hN := hcfg rt0 hs
        rw [show step s (Op.write ts lv msg true) =
              writeFn ts lv msg true s from rfl,
           writeFn_some ts lv msg s rt0 hs]
        by_cases hc : rt0.currentSizeBytes + (formatLine ts lv msg).length >
            rt0.config.maxSizeBytes
        · rw [if_pos hc, rotate_eq]
          refine ⟨?_, ?_⟩
          · by_cases h0 : rt0.config.maxBackups = 0
            · simp only [if_pos h0]
              exact hlen
            · simp only [if_neg h0]
              show (s.fs.active ::
                s.fs.backups.take (rt0.config.maxBackups - 1)).length ≤ N
              rw [List.length_cons, List.length_take]
              have hm := Nat.min_le_left (rt0.config.maxBackups - 1)
                s.fs.backups.length
              omega
          · intro rt hrt
            injection hrt with hrt
            rw [← hrt]
            exact hN
        · rw [if_neg hc]
          refine ⟨hlen, ?_⟩
          intro rt hrt
          injection hrt with hrt
          rw [← hrt]
          exact hN

/-! ## C7 -/

/-- C7: after every operation sequence (initialize, writes, rotations,
shutdown) starting from a fresh process, currentSizeBytes equals the true
byte length of the active file whenever the sink is open: initialize
records the opened file's size, each write adds exactly the bytes
appended, and rotation resets it to 0 for the new empty file. -/
theorem currentSize_matches_active_file (ops : List Op) (rt : SinkRuntime)
    (h : (run Sys.empty ops).sink = some rt) :
    rt.currentSizeBytes = fileSize (run Sys.empty ops).fs.active := by
  have hinv : SizeInv (run Sys.empty ops) :=
    run_preserves_of SizeInv (fun _ => True)
      (fun s op _ hP => sizeInv_step s op hP) ops Sys.empty
      (fun _ _ => trivial) (fun rt' hrt => Option.noConfusion hrt)
  exact hinv rt h

/-- Witness for C7: initialize then two writes (the second rotating) over a
concrete config; the tracked size is the active file's length. -/
theorem currentSize_matches_active_file_witness :
    (run Sys.empty [Op.init ⟨"D", 12, 2⟩ ⟨true, true⟩,
        Op.write "t0" "l" "ab1" true, Op.write "t0" "l" "ab2" true]).sink =
      some ⟨0, validateConfig ⟨"D", 12, 2⟩⟩ ∧
    (0 : Nat) = fileSize (run Sys.empty [Op.init ⟨"D", 12, 2⟩ ⟨true, true⟩,
        Op.write "t0" "l" "ab1" true,
        Op.write "t0" "l" "ab2" true]).fs.active := by
  have hs : (run Sys.empty [Op.init ⟨"D", 12, 2⟩ ⟨true, true⟩,
      Op.write "t0" "l" "ab1" true, Op.write "t0" "l" "ab2" true]).sink =
      some ⟨0, validateConfig ⟨"D", 12, 2⟩⟩ := by decide
  exact ⟨hs, currentSize_matches_active_file _ _ hs⟩

/-! ## C8 -/

/-- C8: at most one file handle is open for append at any time, along every
operation sequence from a fresh process — in particular a second initialize
call without an intervening shutdown closes the previously open handle
before reopening, so it never leaks: the handle count is exactly 1 while
the sink is open and 0 otherwise, hence always at most 1. -/
theorem at_most_one_open_handle (ops : List Op) :
    (run Sys.empty ops).openHandles =
      (if (run Sys.empty ops).sink.isSome then 1 else 0) ∧
    (run Sys.empty ops).openHandles ≤ 1 := by
  have hinv : HandleInv (run Sys.empty ops) :=
    run_preserves_of HandleInv (fun _ => True)
      (fun s op _ hP => handleInv_step s op hP) ops Sys.empty
      (fun _ _ => trivial) rfl
  refine ⟨hinv, ?_⟩
  rw [hinv]
  split <;> omega

/-! ## C3 -/

/-- C3: after initialize with (validated) maxBackups = N, the number of
backup files never exceeds N along any sequence of write/shutdown
operations: a rotation that would make the set exceed N drops the oldest
backup.  Concretely, with maxBackups = 3 and every write rotating, the 4th
rotation holds backups of records 4,3,2 and the 5th rotation deletes the
then-oldest backup (record 2), leaving backups of records 5,4,3 — still
exactly 3 files. -/
theorem backup_count_bounded (N : Nat) (s : Sys) (ops : List Op)
    (hops : ∀ op ∈ ops, op.isInit = false)
    (hlen : s.fs.backups.length ≤ N)
    (hcfg : ∀ rt, s.sink = some rt → rt.config.maxBackups = N) :
    (run s ops).fs.backups.length ≤ N ∧
    (fourRotState.rotations = 4 ∧
     fourRotState.fs.backups =
       [[formatLine "t0" "l" "ab4"], [formatLine "t0" "l" "ab3"],
        [formatLine "t0" "l" "ab2"]] ∧
     fiveRotState.rotations = 5 ∧
     fiveRotState.fs.backups =
       [[formatLine "t0" "l" "ab5"], [formatLine "t0" "l" "ab4"],
        [formatLine "t0" "l" "ab3"]]) := by
  have hrun := run_preserves_of
    (fun t => t.fs.backups.length ≤ N ∧
      ∀ rt, t.sink = some rt → rt.config.maxBackups = N)
    (fun op => op.isInit = false)
    (fun t op hq hp => backupsInv_step N t op hq hp.1 hp.2)
    ops s hops ⟨hlen, hcfg⟩
  exact ⟨hrun.1, by decide, by decide, by decide, by decide⟩

/-- Witness for C3: a concrete initialized state with maxBackups = 2, one
rotating write; the backup count stays within 2. -/
theorem backup_count_bounded_witness :
    (∀ op ∈ [Op.write "t0" "l" "abc" true], op.isInit = false) ∧
    (run { fs := ⟨[], []⟩, sink := some ⟨0, ⟨"D", 8, 2⟩⟩, openHandles := 1,
           rotations := 0 } [Op.write "t0" "l" "abc" true]).fs.backups.length
      ≤ 2 := by
  refine ⟨by decide, ?_⟩
  exact (backup_count_bounded 2
    { fs := ⟨[], []⟩, sink := some ⟨0, ⟨"D", 8, 2⟩⟩, openHandles := 1,
      rotations := 0 } [Op.write "t0" "l" "abc" true]
    (by decide) (by decide)
    (fun rt hrt => by
      injection hrt with hrt
      rw [← hrt])).1

/-! ## C2 -/

/-- C2 counterexample: in the spec §8 scenario (maxSizeBytes = 100,
maxBackups = 2, 15-byte records) the rotation caused by the 7th record
happens, but afterwards the new active file is empty — its size is 0, not
the 15 bytes of the triggering record — and backup slot 1 holds all 7
records, not 6. -/
theorem rotation_scenario_counterexample :
    scenarioAfter7.rotations = 1 ∧
    ¬fileSize scenarioAfter7.fs.active = 15 ∧
    ¬scenarioAfter7.fs.backups.map List.length = [6] := by
  refine ⟨by decide, by decide, by decide⟩

/-- C2 amended: immediately after a rotation triggered by a write, the new
active file is empty (size 0) and all records written so far, including
the triggering one, are in backup slot 1 (when backups are kept); with
maxSizeBytes = 100 and 15-byte records, the rotation caused by the 7th
record leaves backup-1 holding 7 records and the active file empty, and
after 3 further writes the active file holds 3 records. -/
theorem rotation_leaves_active_empty (ts lv msg : String) (s : Sys)
    (rt : SinkRuntime) (h : s.sink = some rt)
    (hgt : rt.currentSizeBytes + (formatLine ts lv msg).length >
      rt.config.maxSizeBytes) :
    (writeFn ts lv msg true s).fs.active = [] ∧
    (0 < rt.config.maxBackups →
      (writeFn ts lv msg true s).fs.backups.head? =
        some (s.fs.active ++ [formatLine ts lv msg])) ∧
    scenarioAfter7.rotations = 1 ∧
    fileSize scenarioAfter7.fs.active = 0 ∧
    scenarioAfter7.fs.backups.map List.length = [7] ∧
    scenarioAfter10.rotations = 1 ∧
    scenarioAfter10.fs.active.length = 3 ∧
    scenarioAfter10.fs.backups.map List.length = [7] := by
  rw [writeFn_some ts lv msg s rt h, if_pos hgt, rotate_eq]
  refine ⟨rfl, ?_, by decide, by decide, by decide, by decide, by decide,
    by decide⟩
  intro hpos
  simp only [if_neg (by omega : ¬rt.config.maxBackups = 0)]
  rfl

/-- Witness for C2's amended general part at a concrete rotating write. -/
theorem rotation_leaves_active_empty_witness :
    (writeFn "t0" "l" "ab1" true
      { fs := ⟨[], []⟩, sink := some ⟨0, ⟨"D", 8, 2⟩⟩, openHandles := 1,
        rotations := 0 }).fs.active = [] ∧
    (writeFn "t0" "l" "ab1" true
      { fs := ⟨[], []⟩, sink := some ⟨0, ⟨"D", 8, 2⟩⟩, openHandles := 1,
        rotations := 0 }).fs.backups.head? =
      some [formatLine "t0" "l" "ab1"] := by
  have h := rotation_leaves_active_empty "t0" "l" "ab1"
    { fs := ⟨[], []⟩, sink := some ⟨0, ⟨"D", 8, 2⟩⟩, openHandles := 1,
      rotations := 0 } ⟨0, ⟨"D", 8, 2⟩⟩ rfl (by decide)
  refine ⟨h.1, ?_⟩
  have h2 := h.2.1 (by decide)
  simpa using h2

end WebViewLog
